import Mathlib

/-!
Verification of the Balancer V2 virtual boosted pool routing subsystem
(`VirtualBoostedPool`): topology index construction (`createPools`),
descriptor synthesis, pair resolution (`parsePoolPairData`), the liquidity
gate (`checkBalance`) and the swap path compiler (`getSwapData`), together
with the concrete `bbausd` pool batch used by the repository's test suite.

The `VirtualBoostedPool` implementation itself is not part of the source
tree (only its jest test is); the operations below are modelled from the
design specification and checked against the concrete expectations recorded
in the test file.
-/

deriving instance DecidableEq for Except

set_option maxRecDepth 100000

namespace BalancerVirtualBoosted

/-- A token entry of a subgraph pool descriptor: address and decimals. -/
structure SubgraphToken where
  address : String
  decimals : Nat
deriving DecidableEq

/-- A raw physical-pool descriptor as supplied by the metadata provider:
id, address, pool-type tag, ordered token list, main-asset index and
wrapped-asset index (shape of the `bbausdBoostedPools` batch in the test). -/
structure SubgraphPool where
  id : String
  address : String
  poolType : String
  tokens : List SubgraphToken
  mainIndex : Nat
  wrappedIndex : Nat
deriving DecidableEq

/-- A main-token record of a `VirtualBoostedPoolInfo`: the real asset's
address and decimals together with the address and id of the linear pool
wrapping it. -/
structure MainToken where
  address : String
  decimals : Nat
  linearPoolAddr : String
  linearPoolId : String
deriving DecidableEq

/-- Dictionary value: the ordered main-token list of one virtual boosted
pool. -/
structure VirtualBoostedPoolInfo where
  mainTokens : List MainToken
deriving DecidableEq

/-- The dictionary mapping a phantom pool id to its
`VirtualBoostedPoolInfo`, modelled as an association list. -/
abbrev Dictionary := List (String × VirtualBoostedPoolInfo)

/-- Exact-key lookup in the dictionary. -/
def dictFind (d : Dictionary) (k : String) : Option VirtualBoostedPoolInfo :=
  (d.find? (fun e => e.1 == k)).map (fun e => e.2)

/-- ASCII lower-casing of a string (the model of `toLowerCase` on hex
addresses). -/
def strLower (s : String) : String := String.mk (s.data.map Char.toLower)

/-- Case-insensitive address equality. -/
def addrEq (a b : String) : Bool := strLower a == strLower b

/-- Swap direction, as in the source's `SwapSide` constant. -/
inductive SwapSide where
  | SELL : SwapSide
  | BUY : SwapSide
deriving DecidableEq

/-- Modelled from the spec: `MAX_INT` from the source's constants module,
the effectively unbounded per-asset limit sentinel (uint256 max). -/
def MAX_INT : String :=
  "115792089237316195423570985008687907853269984665640564039457584007913129639935"

/-- One hop of a compiled plan: physical pool id, input/output asset
indices, amount (the requested amount or the zero sentinel) and the opaque
pool-specific payload (`userData`). -/
structure SwapStep where
  poolId : String
  assetInIndex : Nat
  assetOutIndex : Nat
  amount : String
  userData : String
deriving DecidableEq

/-- A compiled swap plan: ordered swap steps, ordered asset list and a
limits list with one entry per asset. -/
structure SwapData where
  swaps : List SwapStep
  assets : List String
  limits : List String
deriving DecidableEq

/-- Pair-context data returned by the pair resolver. -/
structure PoolPairData where
  tokenIn : String
  tokenOut : String
  phantomPoolId : String
deriving DecidableEq

/-- The errors the subsystem raises, all synchronously. -/
inductive SwapError where
  | invalidVirtualPoolId : SwapError
  | tokenMissing : SwapError
  | unknownVirtualPool : SwapError
deriving DecidableEq

/-- The batch output of `createPools`: the dictionary and the synthesized
descriptor list appended to the subgraph pool catalog. -/
structure VirtualBoostedPools where
  dictionary : Dictionary
  subgraph : List SubgraphPool
deriving DecidableEq

namespace VirtualBoostedPool

/-- The fixed pool-type tag of virtual boosted pools,
`VirtualBoostedPool.poolType` in the source. -/
def poolType : String := "VirtualBoosted"

/-- The normalized (lower-cased) suffix appended to phantom pool ids and
addresses to form virtual pool ids and addresses. -/
def poolSuffix : String := strLower poolType

/-- Modelled from the spec (§4.3, §4.5 of the design): recover a phantom
pool id by stripping the fixed-length suffix from a virtual pool id. -/
def stripSuffix (s : String) : String :=
  String.mk (s.data.take (s.data.length - poolSuffix.data.length))

/-- Fallback token used for (never exercised) out-of-range index access. -/
def defaultToken : SubgraphToken := SubgraphToken.mk "" 0

/-- Modelled from the spec: the main-token record contributed by one linear
pool — the main asset selected by the linear pool's `mainIndex`, plus the
wrapping pool's address and id. -/
def mkMainToken (lp : SubgraphPool) : MainToken :=
  MainToken.mk (lp.tokens.getD lp.mainIndex defaultToken).address
    (lp.tokens.getD lp.mainIndex defaultToken).decimals lp.address lp.id

/-- Modelled from the spec (§4.1): resolve a token of a candidate phantom
pool `pp` to the linear pool of the batch whose own pool-token address it
is; the phantom pool itself (its own address inside its token list) is
excluded. -/
def resolveLinear (pools : List SubgraphPool) (pp : SubgraphPool)
    (t : SubgraphToken) : Option SubgraphPool :=
  pools.find? (fun lp => lp.address == t.address && !(lp.address == pp.address))

/-- Modelled from the spec (§4.1): the ordered main-token list of the
virtual pool built over phantom pool `pp` — one entry per linear pool of
the batch resolving to `pp`, in the order the linear pools' own pool-token
addresses occur in `pp`'s token list. -/
def mainTokensFor (pools : List SubgraphPool) (pp : SubgraphPool) :
    List MainToken :=
  pp.tokens.filterMap (fun t => (resolveLinear pools pp t).map mkMainToken)

/-- Modelled from the spec (§4.1): the phantom pools of the batch that are
discovered — those to which at least one linear pool resolves — each paired
with its main-token list. -/
def discovered (pools : List SubgraphPool) :
    List (SubgraphPool × VirtualBoostedPoolInfo) :=
  pools.filterMap (fun pp =>
    if (mainTokensFor pools pp).isEmpty then none
    else some (pp, VirtualBoostedPoolInfo.mk (mainTokensFor pools pp)))

/-- Modelled from the spec (§4.2): the synthesized `VirtualPoolDescriptor`
for one dictionary entry — id/address are the phantom pool's id/address
concatenated with the normalized suffix, the pool-type tag is the fixed
literal, and the token list is the main-token list's address+decimals
projection with order preserved. -/
def toDescriptor (pp : SubgraphPool) (info : VirtualBoostedPoolInfo) :
    SubgraphPool :=
  SubgraphPool.mk (pp.id ++ poolSuffix) (pp.address ++ poolSuffix) poolType
    (info.mainTokens.map (fun mt => SubgraphToken.mk mt.address mt.decimals))
    0 0

/-- Modelled from the spec (§4.1–§4.2): `VirtualBoostedPool.createPools` —
build the dictionary (keyed by phantom pool id, as the test's
`dictionary[bbausdId]` lookup shows) and the synthesized descriptor list
from a batch of physical-pool descriptors. -/
def createPools (pools : List SubgraphPool) : VirtualBoostedPools :=
  VirtualBoostedPools.mk
    ((discovered pools).map (fun e => (e.1.id, e.2)))
    ((discovered pools).map (fun e => toDescriptor e.1 e.2))

/-- Modelled from the spec (§4.5): `VirtualBoostedPool.getSwapData` — the
swap path compiler. Looks up the dictionary entry (absent id fails with
`InvalidVirtualPoolId`), locates both tokens case-insensitively in the
main-token list (either missing fails with `TokenMissing`), then assembles
the four-asset, three-hop plan with amount chaining and unbounded limits. -/
def getSwapData (tokenIn tokenOut virtualPoolId amount : String)
    (dict : Dictionary) : Except SwapError SwapData :=
  match dictFind dict (stripSuffix virtualPoolId) with
  | none => Except.error SwapError.invalidVirtualPoolId
  | some info =>
    match info.mainTokens.find? (fun mt => addrEq mt.address tokenIn),
        info.mainTokens.find? (fun mt => addrEq mt.address tokenOut) with
    | some tin, some tout =>
      Except.ok (SwapData.mk
        [SwapStep.mk tin.linearPoolId 0 1 amount "0x",
         SwapStep.mk (stripSuffix virtualPoolId) 1 2 "0" "0x",
         SwapStep.mk tout.linearPoolId 2 3 "0" "0x"]
        [tokenIn, tin.linearPoolAddr, tout.linearPoolAddr, tokenOut]
        ([tokenIn, tin.linearPoolAddr, tout.linearPoolAddr, tokenOut].map
          (fun _ => MAX_INT)))
    | _, _ => Except.error SwapError.tokenMissing

/-- Modelled from the spec (§4.3): `VirtualBoostedPool.parsePoolPairData` —
looks up the dictionary entry for the descriptor's id (absent fails with
`UnknownVirtualPool`) and returns the requested tokens unchanged together
with the phantom pool id recovered by stripping the suffix; token
membership is deliberately not validated. -/
def parsePoolPairData (pool : SubgraphPool) (tokenIn tokenOut : String)
    (dict : Dictionary) : Except SwapError PoolPairData :=
  match dictFind dict (stripSuffix pool.id) with
  | none => Except.error SwapError.unknownVirtualPool
  | some _ =>
    Except.ok (PoolPairData.mk tokenIn tokenOut (stripSuffix pool.id))

/-- Modelled from the spec (§4.4): the balances establish that the route
can satisfy the requested side only when balance information is present and
every supplied balance covers the requested amount. -/
def routeSatisfiable (balances : List Nat) (amount : Nat) : Bool :=
  !balances.isEmpty && balances.all (fun b => decide (amount ≤ b))

/-- Modelled from the spec (§4.4): `VirtualBoostedPool.checkBalance` — the
fail-closed liquidity gate: usable only when the supplied balances suffice
to establish that the route can satisfy the requested side; any
uncertainty (in particular, an empty balances list) yields "not usable". -/
def checkBalance (balances : List Nat) (amount : Nat) (side : SwapSide)
    (ppd : PoolPairData) : Bool :=
  routeSatisfiable balances amount

end VirtualBoostedPool

/-! ### The concrete `bbausd` batch from the test file -/

/-- The `bbausd` phantom pool id (test file, line 28). -/
def bbausdId : String :=
  "0x7b50775383d3d6f0215a8f290f2c9e2eebbeceb20000000000000000000000fe"

/-- The `bbausd` phantom pool address (test file, line 30). -/
def bbausdAddr : String := "0x7b50775383d3d6f0215a8f290f2c9e2eebbeceb2"

/-- Mainnet DAI address (lower-cased), as in the linear pool token data. -/
def daiAddr : String := "0x6b175474e89094c44da98b954eedeac495271d0f"

/-- Mainnet USDC address (lower-cased), as in the linear pool token data. -/
def usdcAddr : String := "0xa0b86991c6218b36c1d19d4a2e9eb0ce3606eb48"

/-- Mainnet USDT address (lower-cased), as in the linear pool token data. -/
def usdtAddr : String := "0xdac17f958d2ee523a2206206994597c13d831ec7"

/-- Mainnet WETH address (lower-cased); a token outside the bbausd
main-token set, used by the `getSwapData, invalid tokens` test. -/
def wethAddr : String := "0xc02aaa39b223fe8d0a0e5c4f27ead9083c756cc2"

/-- The `bbausd` phantom pool descriptor (test file, lines 32–56). -/
def bbausdPhantom : SubgraphPool :=
  SubgraphPool.mk bbausdId bbausdAddr "StablePhantom"
    [SubgraphToken.mk "0x2bbf681cc4eb09218bee85ea2a5d3d13fa40fc0c" 18,
     SubgraphToken.mk "0x7b50775383d3d6f0215a8f290f2c9e2eebbeceb2" 18,
     SubgraphToken.mk "0x804cdb9116a10bb78768d3252355a1b18067bf8f" 18,
     SubgraphToken.mk "0x9210f1204b5a24742eba12f710636d76240df3d0" 18]
    0 0

/-- The `bbausdBoostedPools` batch of four physical-pool descriptors
(test file, lines 31–120): one `StablePhantom` pool and three `AaveLinear`
pools wrapping USDC, DAI and USDT. -/
def bbausdBoostedPools : List SubgraphPool :=
  [bbausdPhantom,
   SubgraphPool.mk
    "0x9210f1204b5a24742eba12f710636d76240df3d00000000000000000000000fc"
    "0x9210f1204b5a24742eba12f710636d76240df3d0" "AaveLinear"
    [SubgraphToken.mk "0x9210f1204b5a24742eba12f710636d76240df3d0" 18,
     SubgraphToken.mk usdcAddr 6,
     SubgraphToken.mk "0xd093fa4fb80d09bb30817fdcd442d4d02ed3e5de" 6]
    1 2,
   SubgraphPool.mk
    "0x804cdb9116a10bb78768d3252355a1b18067bf8f0000000000000000000000fb"
    "0x804cdb9116a10bb78768d3252355a1b18067bf8f" "AaveLinear"
    [SubgraphToken.mk "0x02d60b84491589974263d922d9cc7a3152618ef6" 18,
     SubgraphToken.mk daiAddr 18,
     SubgraphToken.mk "0x804cdb9116a10bb78768d3252355a1b18067bf8f" 18]
    1 0,
   SubgraphPool.mk
    "0x2bbf681cc4eb09218bee85ea2a5d3d13fa40fc0c0000000000000000000000fd"
    "0x2bbf681cc4eb09218bee85ea2a5d3d13fa40fc0c" "AaveLinear"
    [SubgraphToken.mk "0x2bbf681cc4eb09218bee85ea2a5d3d13fa40fc0c" 18,
     SubgraphToken.mk usdtAddr 6,
     SubgraphToken.mk "0xf8fd466f12e236f4c96f7cce6c79eadb819abf58" 6]
    1 2]

/-- The expected main-token record for USDT in the bbausd dictionary entry
(test file, lines 163–170). -/
def mtUSDT : MainToken :=
  MainToken.mk usdtAddr 6 "0x2bbf681cc4eb09218bee85ea2a5d3d13fa40fc0c"
    "0x2bbf681cc4eb09218bee85ea2a5d3d13fa40fc0c0000000000000000000000fd"

/-- The expected main-token record for DAI in the bbausd dictionary entry
(test file, lines 171–178). -/
def mtDAI : MainToken :=
  MainToken.mk daiAddr 18 "0x804cdb9116a10bb78768d3252355a1b18067bf8f"
    "0x804cdb9116a10bb78768d3252355a1b18067bf8f0000000000000000000000fb"

/-- The expected main-token record for USDC in the bbausd dictionary entry
(test file, lines 179–186). -/
def mtUSDC : MainToken :=
  MainToken.mk usdcAddr 6 "0x9210f1204b5a24742eba12f710636d76240df3d0"
    "0x9210f1204b5a24742eba12f710636d76240df3d00000000000000000000000fc"

/-- The expected bbausd dictionary entry: USDT, DAI, USDC in the order
their linear pools' pool-tokens occur in the phantom pool's token list. -/
def bbausdInfo : VirtualBoostedPoolInfo :=
  VirtualBoostedPoolInfo.mk [mtUSDT, mtDAI, mtUSDC]

/-- The expected synthesized descriptor for the bbausd virtual boosted
pool (test file, lines 189–206). -/
def bbausdDescriptor : SubgraphPool :=
  SubgraphPool.mk (bbausdId ++ VirtualBoostedPool.poolSuffix)
    (bbausdAddr ++ VirtualBoostedPool.poolSuffix) VirtualBoostedPool.poolType
    [SubgraphToken.mk usdtAddr 6, SubgraphToken.mk daiAddr 18,
     SubgraphToken.mk usdcAddr 6]
    0 0

/-- The expected compiled plan for a DAI → USDC swap of amount "1" on the
bbausd virtual boosted pool (test file, lines 282–327). -/
def bbausdPlanDaiUsdc : SwapData :=
  SwapData.mk
    [SwapStep.mk
      "0x804cdb9116a10bb78768d3252355a1b18067bf8f0000000000000000000000fb"
      0 1 "1" "0x",
     SwapStep.mk bbausdId 1 2 "0" "0x",
     SwapStep.mk
      "0x9210f1204b5a24742eba12f710636d76240df3d00000000000000000000000fc"
      2 3 "0" "0x"]
    [daiAddr, "0x804cdb9116a10bb78768d3252355a1b18067bf8f",
     "0x9210f1204b5a24742eba12f710636d76240df3d0", usdcAddr]
    [MAX_INT, MAX_INT, MAX_INT, MAX_INT]

/-! ### Helper lemmas -/

open VirtualBoostedPool

/-- Every main token emitted for a candidate phantom pool comes from a
linear pool of the batch, is built by `mkMainToken`, and its wrapping
pool's address differs from the phantom pool's own address. -/
theorem mainTokensFor_mem_provenance (pools : List SubgraphPool)
    (pp : SubgraphPool) (mt : MainToken) (h : mt ∈ mainTokensFor pools pp) :
    ∃ lp, lp ∈ pools ∧ mt = mkMainToken lp ∧ lp.address ≠ pp.address := by
  obtain ⟨t, ht, hft⟩ := List.mem_filterMap.mp h
  cases hr : resolveLinear pools pp t with
  | none => rw [hr] at hft; cases hft
  | some lp =>
    rw [hr] at hft
    have hmt : mkMainToken lp = mt := by simpa using hft
    have hr₂ : pools.find?
        (fun q => q.address == t.address && !(q.address == pp.address)) =
        some lp := hr
    have hmem := List.mem_of_find?_eq_some hr₂
    have hp := List.find?_some hr₂
    rw [Bool.and_eq_true] at hp
    have hne : lp.address ≠ pp.address := by
      simpa using hp.2
    exact ⟨lp, hmem, hmt.symm, hne⟩

/-- The wrapper addresses of the emitted main tokens form a sublist of the
phantom pool's token addresses: the emitted order follows the position at
which each linear pool's own pool-token occurs in the phantom pool's token
list. -/
theorem mainTokensFor_sublist_tokens (pools : List SubgraphPool)
    (pp : SubgraphPool) :
    List.Sublist
      ((mainTokensFor pools pp).map MainToken.linearPoolAddr)
      (pp.tokens.map SubgraphToken.address) := by
  show List.Sublist
    ((pp.tokens.filterMap
        (fun t => (resolveLinear pools pp t).map mkMainToken)).map
      MainToken.linearPoolAddr)
    (pp.tokens.map SubgraphToken.address)
  induction pp.tokens with
  | nil => simp
  | cons t ts ih =>
    rw [List.filterMap_cons]
    cases hr : resolveLinear pools pp t with
    | none =>
      rw [List.map_cons]
      exact List.Sublist.cons t.address ih
    | some lp =>
      have hr₂ : pools.find?
          (fun q => q.address == t.address && !(q.address == pp.address)) =
          some lp := hr
      have hp := List.find?_some hr₂
      rw [Bool.and_eq_true] at hp
      have haddr : lp.address = t.address := by
        simpa using hp.1
      have hhd : (mkMainToken lp).linearPoolAddr = t.address := haddr
      rw [Option.map_some', List.map_cons, List.map_cons, hhd]
      exact List.Sublist.cons₂ t.address ih

/-- An element of `discovered pools` has its phantom pool in the batch and
its main-token list computed by `mainTokensFor`. -/
theorem discovered_mem_spec (pools : List SubgraphPool)
    (e : SubgraphPool × VirtualBoostedPoolInfo) (h : e ∈ discovered pools) :
    e.1 ∈ pools ∧ e.2 = VirtualBoostedPoolInfo.mk (mainTokensFor pools e.1) := by
  obtain ⟨a, ha, hfe⟩ := List.mem_filterMap.mp h
  by_cases hemp : (mainTokensFor pools a).isEmpty
  · rw [if_pos hemp] at hfe
    cases hfe
  · rw [if_neg hemp] at hfe
    cases hfe
    exact ⟨ha, rfl⟩

/-! ### Claim theorems -/

/-- C4: for every virtual pool id absent from the dictionary (its stripped
phantom id is not a key), `getSwapData` fails synchronously with the
`InvalidVirtualPoolId` error — for every choice of tokenIn, tokenOut and
amount — and returns no partial plan. -/
theorem getSwapData_unknown_id (dict : Dictionary)
    (vid tokenIn tokenOut amount : String)
    (h : dictFind dict (stripSuffix vid) = none) :
    getSwapData tokenIn tokenOut vid amount dict =
      Except.error SwapError.invalidVirtualPoolId := by
  unfold getSwapData
  rw [h]

/-- C4 witness: the test's `wrongid` request on the bbausd dictionary. -/
theorem getSwapData_unknown_id_witness :
    getSwapData daiAddr usdcAddr "wrongid" "1"
      (createPools bbausdBoostedPools).dictionary =
      Except.error SwapError.invalidVirtualPoolId :=
  getSwapData_unknown_id (createPools bbausdBoostedPools).dictionary
    "wrongid" daiAddr usdcAddr "1" (by decide)

/-- C7: for a descriptor whose (stripped) id is in the dictionary,
`parsePoolPairData` succeeds for every requested token pair — membership is
not validated — returning the tokens unchanged and the phantom pool id
obtained by stripping the suffix from the descriptor id; for a descriptor
id absent from the dictionary it fails with `UnknownVirtualPool`. -/
theorem parsePoolPairData_spec (pool : SubgraphPool)
    (tokenIn tokenOut : String) (dict : Dictionary) :
    (∀ info, dictFind dict (stripSuffix pool.id) = some info →
      parsePoolPairData pool tokenIn tokenOut dict =
        Except.ok (PoolPairData.mk tokenIn tokenOut (stripSuffix pool.id))) ∧
    (dictFind dict (stripSuffix pool.id) = none →
      parsePoolPairData pool tokenIn tokenOut dict =
        Except.error SwapError.unknownVirtualPool) := by
  constructor
  · intro info h
    unfold parsePoolPairData
    rw [h]
  · intro h
    unfold parsePoolPairData
    rw [h]

/-- C7 witness: the bbausd descriptor resolves the DAI/USDC pair to the
phantom pool id, and a descriptor with an unknown id fails. -/
theorem parsePoolPairData_spec_witness :
    parsePoolPairData bbausdDescriptor daiAddr usdcAddr
        (createPools bbausdBoostedPools).dictionary =
      Except.ok (PoolPairData.mk daiAddr usdcAddr
        (stripSuffix bbausdDescriptor.id)) ∧
    parsePoolPairData (SubgraphPool.mk "wrongid" "wrongaddr" poolType [] 0 0)
        daiAddr usdcAddr (createPools bbausdBoostedPools).dictionary =
      Except.error SwapError.unknownVirtualPool := by
  constructor
  · exact (parsePoolPairData_spec bbausdDescriptor daiAddr usdcAddr
      (createPools bbausdBoostedPools).dictionary).1 bbausdInfo (by decide)
  · exact (parsePoolPairData_spec
      (SubgraphPool.mk "wrongid" "wrongaddr" poolType [] 0 0) daiAddr usdcAddr
      (createPools bbausdBoostedPools).dictionary).2 (by decide)

/-- C8: the liquidity gate is fail-closed — whenever the supplied balances
cannot establish that the route can satisfy the requested side (the
balances list is empty, or some supplied balance is below the requested
amount), `checkBalance` returns false, for every direction and
pair-context. -/
theorem checkBalance_fail_closed (balances : List Nat) (amount : Nat)
    (side : SwapSide) (ppd : PoolPairData)
    (h : balances = [] ∨ ∃ b ∈ balances, b < amount) :
    checkBalance balances amount side ppd = false := by
  unfold checkBalance routeSatisfiable
  rcases h with h | ⟨b, hb, hlt⟩
  · subst h
    simp
  · have hall : balances.all (fun b => decide (amount ≤ b)) = false := by
      rw [List.all_eq_false]
      exact ⟨b, hb, by simpa using Nat.not_le.mpr hlt⟩
    rw [hall]
    simp

/-- C8 witness: the test's gate call with no balance information and a zero
amount reports "not usable". -/
theorem checkBalance_fail_closed_witness :
    checkBalance [] 0 SwapSide.SELL
      (PoolPairData.mk daiAddr usdcAddr bbausdId) = false :=
  checkBalance_fail_closed [] 0 SwapSide.SELL
    (PoolPairData.mk daiAddr usdcAddr bbausdId) (Or.inl rfl)

/-- C9: topology index construction is deterministic — running
`createPools` on structurally identical batches yields structurally
identical dictionaries and descriptor lists (the model is a pure function
of its input, matching the source's side-effect-free wholesale rebuild). -/
theorem createPools_deterministic (pools₁ pools₂ : List SubgraphPool)
    (h : pools₁ = pools₂) :
    (createPools pools₁).dictionary = (createPools pools₂).dictionary ∧
    (createPools pools₁).subgraph = (createPools pools₂).subgraph := by
  subst h
  exact ⟨rfl, rfl⟩

/-- C1: for a virtual pool id whose stripped phantom id is in the
dictionary and tokens both present (case-insensitively) in the entry's
main-token list, `getSwapData` returns a plan with exactly 4 assets,
3 swaps and 4 limits, whose assets are
`[tokenIn, linear(tokenIn).poolToken, linear(tokenOut).poolToken, tokenOut]`. -/
theorem getSwapData_plan_shape (dict : Dictionary)
    (vid tokenIn tokenOut amount : String) (info : VirtualBoostedPoolInfo)
    (hdict : dictFind dict (stripSuffix vid) = some info)
    (hin : ∃ mt ∈ info.mainTokens, addrEq mt.address tokenIn = true)
    (hout : ∃ mt ∈ info.mainTokens, addrEq mt.address tokenOut = true) :
    ∃ tin tout plan,
      info.mainTokens.find? (fun mt => addrEq mt.address tokenIn) = some tin ∧
      info.mainTokens.find? (fun mt => addrEq mt.address tokenOut) = some tout ∧
      getSwapData tokenIn tokenOut vid amount dict = Except.ok plan ∧
      plan.assets = [tokenIn, tin.linearPoolAddr, tout.linearPoolAddr, tokenOut] ∧
      plan.assets.length = 4 ∧ plan.swaps.length = 3 ∧
      plan.limits.length = 4 := by
  obtain ⟨tin, htin⟩ := Option.isSome_iff_exists.mp
    (List.find?_isSome.mpr (by simpa using hin))
  obtain ⟨tout, htout⟩ := Option.isSome_iff_exists.mp
    (List.find?_isSome.mpr (by simpa using hout))
  have hgs : getSwapData tokenIn tokenOut vid amount dict = Except.ok
      (SwapData.mk
        [SwapStep.mk tin.linearPoolId 0 1 amount "0x",
         SwapStep.mk (stripSuffix vid) 1 2 "0" "0x",
         SwapStep.mk tout.linearPoolId 2 3 "0" "0x"]
        [tokenIn, tin.linearPoolAddr, tout.linearPoolAddr, tokenOut]
        ([tokenIn, tin.linearPoolAddr, tout.linearPoolAddr, tokenOut].map
          (fun _ => MAX_INT))) := by
    simp only [getSwapData, hdict, htin, htout]
  exact ⟨tin, tout, _, htin, htout, hgs, rfl, rfl, rfl, rfl⟩

/-- C1 witness: the DAI → USDC request of the test on the bbausd
dictionary. -/
theorem getSwapData_plan_shape_witness :
    ∃ tin tout plan,
      bbausdInfo.mainTokens.find? (fun mt => addrEq mt.address daiAddr) =
        some tin ∧
      bbausdInfo.mainTokens.find? (fun mt => addrEq mt.address usdcAddr) =
        some tout ∧
      getSwapData daiAddr usdcAddr (bbausdId ++ poolSuffix) "1"
        (createPools bbausdBoostedPools).dictionary = Except.ok plan ∧
      plan.assets = [daiAddr, tin.linearPoolAddr, tout.linearPoolAddr,
        usdcAddr] ∧
      plan.assets.length = 4 ∧ plan.swaps.length = 3 ∧
      plan.limits.length = 4 :=
  getSwapData_plan_shape (createPools bbausdBoostedPools).dictionary
    (bbausdId ++ poolSuffix) daiAddr usdcAddr "1" bbausdInfo (by decide)
    (by decide) (by decide)

/-- C2: every successfully compiled plan has step amounts
`[amount, "0", "0"]` (only the first step carries the requested amount,
the rest the zero sentinel), an empty (`"0x"`) pool-specific payload on
every step, and a limits list with one entry per asset, each equal to the
unbounded sentinel `MAX_INT`. -/
theorem getSwapData_amounts_limits (dict : Dictionary)
    (vid tokenIn tokenOut amount : String) (plan : SwapData)
    (hok : getSwapData tokenIn tokenOut vid amount dict = Except.ok plan) :
    plan.swaps.map SwapStep.amount = [amount, "0", "0"] ∧
    (∀ s ∈ plan.swaps, s.userData = "0x") ∧
    plan.limits.length = plan.assets.length ∧
    (∀ x ∈ plan.limits, x = MAX_INT) := by
  cases hd : dictFind dict (stripSuffix vid) with
  | none =>
    simp only [getSwapData, hd] at hok
    exact Except.noConfusion hok
  | some info =>
    cases hin : info.mainTokens.find? (fun mt => addrEq mt.address tokenIn) with
    | none =>
      simp only [getSwapData, hd, hin] at hok
      exact Except.noConfusion hok
    | some tin =>
      cases hout : info.mainTokens.find?
          (fun mt => addrEq mt.address tokenOut) with
      | none =>
        simp only [getSwapData, hd, hin, hout] at hok
        exact Except.noConfusion hok
      | some tout =>
        simp only [getSwapData, hd, hin, hout, Except.ok.injEq] at hok
        subst hok
        refine ⟨rfl, ?_, rfl, ?_⟩
        · intro s hs
          simp only [List.mem_cons, List.not_mem_nil, or_false] at hs
          rcases hs with h | h | h <;> subst h <;> rfl
        · intro x hx
          simp only [List.map_cons, List.map_nil, List.mem_cons,
            List.not_mem_nil, or_false] at hx
          rcases hx with h | h | h | h <;> subst h <;> rfl

/-- C2 witness: the concrete DAI → USDC plan of the test. -/
theorem getSwapData_amounts_limits_witness :
    bbausdPlanDaiUsdc.swaps.map SwapStep.amount = ["1", "0", "0"] ∧
    (∀ s ∈ bbausdPlanDaiUsdc.swaps, s.userData = "0x") ∧
    bbausdPlanDaiUsdc.limits.length = bbausdPlanDaiUsdc.assets.length ∧
    (∀ x ∈ bbausdPlanDaiUsdc.limits, x = MAX_INT) :=
  getSwapData_amounts_limits (createPools bbausdBoostedPools).dictionary
    (bbausdId ++ poolSuffix) daiAddr usdcAddr "1" bbausdPlanDaiUsdc
    (by decide)

/-- C5: for a virtual pool id present in the dictionary, if either
requested token has no case-insensitive match in the entry's main-token
list, `getSwapData` fails synchronously with the `TokenMissing` error and
returns no partial plan. -/
theorem getSwapData_token_missing (dict : Dictionary)
    (vid tokenIn tokenOut amount : String) (info : VirtualBoostedPoolInfo)
    (hdict : dictFind dict (stripSuffix vid) = some info)
    (h : (∀ mt ∈ info.mainTokens, addrEq mt.address tokenIn = false) ∨
        (∀ mt ∈ info.mainTokens, addrEq mt.address tokenOut = false)) :
    getSwapData tokenIn tokenOut vid amount dict =
      Except.error SwapError.tokenMissing := by
  rcases h with h | h
  · have hfin : info.mainTokens.find?
        (fun mt => addrEq mt.address tokenIn) = none := by
      rw [List.find?_eq_none]
      intro x hx
      simp [h x hx]
    simp only [getSwapData, hdict, hfin]
  · have hfout : info.mainTokens.find?
        (fun mt => addrEq mt.address tokenOut) = none := by
      rw [List.find?_eq_none]
      intro x hx
      simp [h x hx]
    cases hin : info.mainTokens.find?
        (fun mt => addrEq mt.address tokenIn) with
    | none => simp only [getSwapData, hdict, hin]
    | some tin => simp only [getSwapData, hdict, hin, hfout]

/-- C5 witness: the test's WETH → USDC request on the bbausd pool fails
with the token-missing error. -/
theorem getSwapData_token_missing_witness :
    getSwapData wethAddr usdcAddr (bbausdId ++ poolSuffix) "1"
      (createPools bbausdBoostedPools).dictionary =
      Except.error SwapError.tokenMissing :=
  getSwapData_token_missing (createPools bbausdBoostedPools).dictionary
    (bbausdId ++ poolSuffix) wethAddr usdcAddr "1" bbausdInfo (by decide)
    (Or.inl (by decide))

/-- C9 witness: two runs on the bbausd batch agree. -/
theorem createPools_deterministic_witness :
    (createPools bbausdBoostedPools).dictionary =
      (createPools bbausdBoostedPools).dictionary ∧
    (createPools bbausdBoostedPools).subgraph =
      (createPools bbausdBoostedPools).subgraph :=
  createPools_deterministic bbausdBoostedPools bbausdBoostedPools rfl

/-- C3: the emitted main-token list of a virtual boosted pool has its
entries built by `mkMainToken` from linear pools of the input batch (main
asset selected by `mainIndex`, wrapper address and id recorded), ordered by
the position at which each linear pool's own pool-token occurs in the
phantom pool's token list; on the concrete bbausd batch — and on the same
batch in reversed input order — the dictionary entry is
[USDT, DAI, USDC]. -/
theorem createPools_mainTokens_order :
    (∀ (pools : List SubgraphPool) (pp : SubgraphPool),
      List.Sublist ((mainTokensFor pools pp).map MainToken.linearPoolAddr)
        (pp.tokens.map SubgraphToken.address)) ∧
    (∀ (pools : List SubgraphPool) (pp : SubgraphPool) (mt : MainToken),
      mt ∈ mainTokensFor pools pp →
      ∃ lp, lp ∈ pools ∧ mt = mkMainToken lp) ∧
    dictFind (createPools bbausdBoostedPools).dictionary bbausdId =
      some bbausdInfo ∧
    dictFind (createPools bbausdBoostedPools.reverse).dictionary bbausdId =
      some bbausdInfo := by
  refine ⟨mainTokensFor_sublist_tokens, ?_, by decide, by decide⟩
  intro pools pp mt h
  obtain ⟨lp, hlp, hmt, h₃⟩ := mainTokensFor_mem_provenance pools pp mt h
  exact ⟨lp, hlp, hmt⟩

/-- C3 witness: the DAI entry of the bbausd virtual pool comes from a
linear pool of the batch. -/
theorem createPools_mainTokens_order_witness :
    ∃ lp, lp ∈ bbausdBoostedPools ∧ mtDAI = mkMainToken lp :=
  createPools_mainTokens_order.2.1 bbausdBoostedPools bbausdPhantom mtDAI
    (by decide)

/-- C6: for every dictionary entry the factory emits exactly one
descriptor at the same position — pool-type the fixed `VirtualBoosted`
literal, tokens the main-token list's address+decimals projection in
order, id/address the phantom pool's id/address concatenated with the
lower-cased suffix — and on the bbausd batch the emitted list is exactly
the expected descriptor, whose pool-type tag differs from every physical
pool type of the batch. -/
theorem createPools_descriptor_factory :
    (∀ (pools : List SubgraphPool) (i : Nat) (k : String)
        (info : VirtualBoostedPoolInfo),
      (createPools pools).dictionary.get? i = some (k, info) →
      ∃ d, (createPools pools).subgraph.get? i = some d ∧
        d.poolType = poolType ∧
        d.tokens = info.mainTokens.map
          (fun mt => SubgraphToken.mk mt.address mt.decimals) ∧
        ∃ pp, pp ∈ pools ∧ pp.id = k ∧ d.id = k ++ poolSuffix ∧
          d.address = pp.address ++ poolSuffix) ∧
    (∀ pools : List SubgraphPool,
      (createPools pools).dictionary.length =
        (createPools pools).subgraph.length) ∧
    (createPools bbausdBoostedPools).subgraph = [bbausdDescriptor] ∧
    (∀ p ∈ bbausdBoostedPools, p.poolType ≠ poolType) := by
  refine ⟨?_, ?_, by decide, by decide⟩
  · intro pools i k info hget
    have hget₂ : ((discovered pools).get? i).map
        (fun e => (e.1.id, e.2)) = some (k, info) := by
      simpa [createPools, List.get?_map] using hget
    obtain ⟨e, he, hfe⟩ := Option.map_eq_some'.mp hget₂
    have hid : e.1.id = k := congrArg Prod.fst hfe
    have hinfo : e.2 = info := congrArg Prod.snd hfe
    refine ⟨toDescriptor e.1 e.2, ?_, rfl, ?_, e.1, ?_, hid, ?_, ?_⟩
    · show ((discovered pools).map
          (fun e => toDescriptor e.1 e.2)).get? i =
        some (toDescriptor e.1 e.2)
      rw [List.get?_map, he]
      rfl
    · rw [← hinfo]
      rfl
    · exact (discovered_mem_spec pools e (List.get?_mem he)).1
    · show e.1.id ++ poolSuffix = k ++ poolSuffix
      rw [hid]
    · rfl
  · intro pools
    simp [createPools]

/-- C6 witness: the factory output for the bbausd dictionary entry. -/
theorem createPools_descriptor_factory_witness :
    ∃ d, (createPools bbausdBoostedPools).subgraph.get? 0 = some d ∧
      d.poolType = poolType ∧
      d.tokens = bbausdInfo.mainTokens.map
        (fun mt => SubgraphToken.mk mt.address mt.decimals) ∧
      ∃ pp, pp ∈ bbausdBoostedPools ∧ pp.id = bbausdId ∧
        d.id = bbausdId ++ poolSuffix ∧
        d.address = pp.address ++ poolSuffix :=
  createPools_descriptor_factory.1 bbausdBoostedPools 0 bbausdId bbausdInfo
    (by decide)

/-- C10: a main-token entry never records the phantom pool's own
pool-token as its wrapping linear pool (the phantom pool, whose own
address appears inside its token list, is excluded), and on the
four-descriptor bbausd batch the dictionary entry has exactly 3 main
tokens, not 4. -/
theorem mainTokens_excludes_phantom :
    (∀ (pools : List SubgraphPool) (pp : SubgraphPool) (mt : MainToken),
      mt ∈ mainTokensFor pools pp → mt.linearPoolAddr ≠ pp.address) ∧
    (dictFind (createPools bbausdBoostedPools).dictionary bbausdId).map
      (fun info => info.mainTokens.length) = some 3 := by
  refine ⟨?_, by decide⟩
  intro pools pp mt h
  obtain ⟨lp, hlp, hmt, hne⟩ := mainTokensFor_mem_provenance pools pp mt h
  rw [hmt]
  exact hne

/-- C10 witness: the USDT entry of the bbausd virtual pool does not carry
the phantom pool's own address. -/
theorem mainTokens_excludes_phantom_witness :
    mtUSDT.linearPoolAddr ≠ bbausdPhantom.address :=
  mainTokens_excludes_phantom.1 bbausdBoostedPools bbausdPhantom mtUSDT
    (by decide)

end BalancerVirtualBoosted
